import Mathlib

/-!
Shallow embedding of the YouTube-analytics backend (`app.py`) and proofs
about it.  Python strings are modelled as Lean `String`/`List Char`,
Python ints as `Nat`, Python floats as `ℚ` (exact arithmetic; the float
formatting `f"{x:.kf}"` is modelled as exact decimal rounding with ties
to even, which is what CPython's formatting performs on the underlying
value), Python `None`-able results as `Option`, and the remote YouTube
API as an oracle record `Api` together with an explicit log of the
remote calls each code path issues.
-/

/-! ## Number formatting (`YouTubeAnalyzer.format_number`, app.py 332-345) -/

/-- Left-pad the decimal digits of `n` with zeros to `k` digits. -/
def padZeros (k : Nat) (n : Nat) : String :=
  let s := toString n
  String.mk (List.replicate (k - s.length) '0') ++ s

/-- Round a rational to the nearest integer, ties to even (the rounding
CPython's fixed-point float formatting applies). -/
def roundHalfEven (q : ℚ) : ℤ :=
  if q - (⌊q⌋ : ℚ) < 1/2 then ⌊q⌋
  else if 1/2 < q - (⌊q⌋ : ℚ) then ⌊q⌋ + 1
  else if ⌊q⌋ % 2 = 0 then ⌊q⌋ else ⌊q⌋ + 1

/-- Model of the Python format `f"{q:.kf}"` for non-negative `q`:
`k` digits after the decimal point. -/
def fmtFixed (k : Nat) (q : ℚ) : String :=
  let scaled := roundHalfEven (q * (10 : ℚ) ^ k)
  toString (scaled / (10 : ℤ) ^ k) ++ "." ++ padZeros k (scaled % (10 : ℤ) ^ k).toNat

/-- Input domain of `format_number`: a numeric count, or a value on which
Python's `int(float(num))` raises (the `except` branch of the source). -/
inductive NumInput where
  | num (n : Nat)
  | malformed (s : String)
deriving DecidableEq

/-- Source `YouTubeAnalyzer.format_number` (app.py 332-345): thresholded
human-readable rendering; any exception yields `"0"`. -/
def format_number : NumInput → String
  | .malformed _ => "0"
  | .num n =>
    if 1000000000 ≤ n then fmtFixed 1 ((n : ℚ) / 1000000000) ++ "B"
    else if 1000000 ≤ n then fmtFixed 1 ((n : ℚ) / 1000000) ++ "M"
    else if 1000 ≤ n then fmtFixed 1 ((n : ℚ) / 1000) ++ "K"
    else toString n

/-! ## Python string primitives used by the source -/

/-- Boolean prefix test on char lists (equivalent to `List.isPrefixOf`,
but matching on the pattern first so that it reduces definitionally when
the pattern is concrete and the text has a symbolic tail). -/
def isPre : List Char → List Char → Bool
  | [], _ => true
  | a :: as, l =>
    match l with
    | [] => false
    | b :: bs => (a == b) && isPre as bs

/-- Substring test, the model of Python's `pat in s` (over char lists). -/
def containsSub (pat : List Char) : List Char → Bool
  | [] => pat.isEmpty
  | c :: cs => isPre pat (c :: cs) || containsSub pat cs

/-- Python's `pat in s` on strings. -/
def pyIn (pat s : String) : Bool := containsSub pat.toList s.toList

/-- Characters Python's `str.strip()` removes. -/
def pySpace (c : Char) : Bool :=
  c = ' ' || c = '\t' || c = '\n' || c = '\r' || c = '\x0b' || c = '\x0c'

/-- Python's `str.strip()`. -/
def pyStrip (s : String) : String :=
  String.mk (((s.toList.dropWhile pySpace).reverse.dropWhile pySpace).reverse)

/-- ASCII lower-casing of one character (Python `str.lower` restricted to
the ASCII range, which covers every keyword the source matches). -/
def lowerChar (c : Char) : Char :=
  if 'A' ≤ c && c ≤ 'Z' then Char.ofNat (c.toNat + 32) else c

/-- Python's `str.lower()`. -/
def pyLower (s : String) : String := String.mk (s.toList.map lowerChar)

/-- Python's `s.startswith(pre)`. -/
def pyStartswith (s pre : String) : Bool := isPre pre.toList s.toList

/-- Fuel-driven splitter: Python's `str.split(sep)` on char lists
(non-overlapping leftmost occurrences; `fuel` bounds the recursion and is
instantiated with the list length, which always suffices). -/
def splitOnFuel (sep : List Char) : Nat → List Char → List (List Char)
  | _, [] => [[]]
  | 0, l => [l]
  | fuel + 1, c :: cs =>
    if isPre sep (c :: cs) then
      [] :: splitOnFuel sep fuel ((c :: cs).drop sep.length)
    else
      match splitOnFuel sep fuel cs with
      | t :: ts => (c :: t) :: ts
      | [] => [[c]]

/-- Python's `s.split(sep)` on strings. -/
def pySplit (s sep : String) : List String :=
  (splitOnFuel sep.toList s.toList.length s.toList).map String.mk

/-- Python's `s.split(sep)[-1]`: the text after the last occurrence of
`sep` (the whole string when `sep` does not occur). -/
def pySplitLast (s sep : String) : String := (pySplit s sep).getLastD ""

/-- Python's `s.split('/')[0]`: the text before the first `/`. -/
def pySplitHead (s : String) : String := (pySplit s "/").headD ""

/-! ## Sentiment (`YouTubeAnalyzer.analyze_sentiment`, app.py 296-310) -/

/-- The positive keyword list of the source. -/
def positive_words : List String :=
  ["great", "awesome", "amazing", "love", "good", "excellent", "perfect",
   "nice", "wonderful"]

/-- The negative keyword list of the source. -/
def negative_words : List String :=
  ["bad", "terrible", "awful", "hate", "worst", "horrible", "dislike", "poor"]

/-- Source `YouTubeAnalyzer.analyze_sentiment` (app.py 296-310): each keyword
contributes at most 1 (`word in text_lower` is a membership test), the
larger count wins, ties are neutral. -/
def analyze_sentiment (text : String) : String :=
  let tl := pyLower text
  let pos := (positive_words.filter fun w => pyIn w tl).length
  let neg := (negative_words.filter fun w => pyIn w tl).length
  if neg < pos then "positive"
  else if pos < neg then "negative"
  else "neutral"

/-! ## Video engagement (`calculate_video_engagement`, app.py 312-330) -/

structure VideoEngMetrics where
  like_pct : String
  comment_pct : String
  total_engagement : String
  likes_per_view : String
deriving DecidableEq

/-- Source `YouTubeAnalyzer.calculate_video_engagement` (app.py 312-330).
The three counts are the already-defaulted `viewCount`/`likeCount`/
`commentCount` integers of the stats dict. -/
def calculate_video_engagement (views likes comments : Nat) : VideoEngMetrics :=
  if 0 < views then
    let lr : ℚ := (likes : ℚ) / views * 100
    let cr : ℚ := (comments : ℚ) / views * 100
    { like_pct := fmtFixed 2 lr ++ "%"
      comment_pct := fmtFixed 2 cr ++ "%"
      total_engagement := fmtFixed 2 (lr + cr) ++ "%"
      likes_per_view := fmtFixed 4 ((likes : ℚ) / views) }
  else
    { like_pct := fmtFixed 2 0 ++ "%"
      comment_pct := fmtFixed 2 0 ++ "%"
      total_engagement := fmtFixed 2 0 ++ "%"
      likes_per_view := "0" }

/-! ## Channel engagement (`calculate_channel_engagement`, app.py 152-172) -/

/-- The per-video record `get_video_stats_by_id` builds (app.py 251-259),
with its `raw_data` counts inlined (the source applies the `get(..., 0)`
defaults at construction). -/
structure VideoSummary where
  title : String
  published_at : String
  views : Nat
  likes : Nat
  comments : Nat
deriving DecidableEq

structure ChanEngMetrics where
  avg_views_per_video : String
  engagement_rate : String
  total_recent_views : String
  total_recent_likes : String
  total_recent_comments : String
deriving DecidableEq

def totalViews (vs : List VideoSummary) : Nat := (vs.map (·.views)).sum

def totalLikes (vs : List VideoSummary) : Nat := (vs.map (·.likes)).sum

def totalComments (vs : List VideoSummary) : Nat := (vs.map (·.comments)).sum

/-- Source `YouTubeAnalyzer.calculate_channel_engagement` (app.py 152-172).
`subscriberCount` is `none` when the `subscriberCount` key is absent from
the channel's statistics dict (the source then defaults it to `1`);
`none` as the result models Python's empty dict `{}` for an empty video
list.  `format_number(avg)` on the float average is modelled by flooring
into `format_number` (Python's `int(float(·))` for non-negative input). -/
def calculate_channel_engagement (recent_videos : List VideoSummary)
    (subscriberCount : Option Nat) : Option ChanEngMetrics :=
  if recent_videos = [] then none
  else
    let tv := totalViews recent_videos
    let tl := totalLikes recent_videos
    let tc := totalComments recent_videos
    let subs := subscriberCount.getD 1
    let avg : ℚ := (tv : ℚ) / (recent_videos.length : ℚ)
    let rate : ℚ := if 0 < subs then ((tl : ℚ) + (tc : ℚ)) / (subs : ℚ) * 100 else 0
    some
      { avg_views_per_video := format_number (.num (⌊avg⌋).toNat)
        engagement_rate := fmtFixed 2 rate ++ "%"
        total_recent_views := format_number (.num tv)
        total_recent_likes := format_number (.num tl)
        total_recent_comments := format_number (.num tc) }

/-- Rewriting helper: evaluate `fmtFixed` once its rounded scaled value
is known. -/
theorem fmtFixed_eq (k : Nat) (q : ℚ) (n : ℤ)
    (h : roundHalfEven (q * (10 : ℚ) ^ k) = n) :
    fmtFixed k q
      = toString (n / (10 : ℤ) ^ k) ++ "." ++ padZeros k (n % (10 : ℤ) ^ k).toNat := by
  unfold fmtFixed
  rw [h]

/-! ## URL classifier (`extract_channel_id` / `extract_video_id`,
app.py 16-44, and the dispatch of `analyze`, app.py 391-412) -/

/-- Character class `[^/?&]` of the channel-id regexes. -/
def chanCapture (c : Char) : Bool := !(c = '/' || c = '?' || c = '&')

/-- Character class `[0-9A-Za-z_-]` of the video-id regexes. -/
def vidChar (c : Char) : Bool :=
  ('0' ≤ c && c ≤ '9') || ('A' ≤ c && c ≤ 'Z') || ('a' ≤ c && c ≤ 'z')
    || c = '_' || c = '-'

/-- Model of `re.search` for a pattern `lit([^/?&]+)`: leftmost position where the
literal matches and is followed by at least one `[^/?&]` character; the
greedy capture is the maximal such run. -/
def searchAfterLit (lit : List Char) : List Char → Option (List Char)
  | [] => none
  | c :: cs =>
    if isPre lit (c :: cs) then
      let capt := ((c :: cs).drop lit.length).takeWhile chanCapture
      if capt.isEmpty then searchAfterLit lit cs else some capt
    else searchAfterLit lit cs

/-- Match of `([0-9A-Za-z_-]{11})` at the head of `rest`: the next 11
characters, provided there are 11 and all are in the class. -/
def take11 (rest : List Char) : Option (List Char) :=
  let capt := rest.take 11
  if capt.all vidChar && capt.length == 11 then some capt else none

/-- Model of `re.search` for the first video pattern
`(?:v=|\/)([0-9A-Za-z_-]{11}).*`: at each position try the delimiter
`v=` then `/`, then exactly 11 class characters (`.*` always matches). -/
def searchVidP1 : List Char → Option (List Char)
  | [] => none
  | c :: cs =>
    if c = 'v' then
      match cs with
      | '=' :: rest =>
        match take11 rest with
        | some capt => some capt
        | none => searchVidP1 cs
      | _ => searchVidP1 cs
    else if c = '/' then
      match take11 cs with
      | some capt => some capt
      | none => searchVidP1 cs
    else searchVidP1 cs

/-- Model of `re.search` for a pattern `lit([0-9A-Za-z_-]{11})` (the `embed/`,
`shorts/` and `youtu.be/` video patterns). -/
def searchLit11 (lit : List Char) : List Char → Option (List Char)
  | [] => none
  | c :: cs =>
    if isPre lit (c :: cs) then
      match take11 ((c :: cs).drop lit.length) with
      | some capt => some capt
      | none => searchLit11 lit cs
    else searchLit11 lit cs

/-- Source `YouTubeAnalyzer.extract_channel_id` (app.py 16-29) on char lists:
the four patterns in source order, first match wins. -/
def extract_channel_idL (u : List Char) : Option (List Char) :=
  match searchAfterLit "youtube.com/channel/".toList u with
  | some c => some c
  | none =>
  match searchAfterLit "youtube.com/c/".toList u with
  | some c => some c
  | none =>
  match searchAfterLit "youtube.com/user/".toList u with
  | some c => some c
  | none => searchAfterLit "youtube.com/@".toList u

/-- Source `YouTubeAnalyzer.extract_channel_id` (app.py 16-29). -/
def extract_channel_id (url : String) : Option String :=
  (extract_channel_idL url.toList).map String.mk

/-- Source `YouTubeAnalyzer.extract_video_id` (app.py 31-44) on char lists. -/
def extract_video_idL (u : List Char) : Option (List Char) :=
  match searchVidP1 u with
  | some c => some c
  | none =>
  match searchLit11 "embed/".toList u with
  | some c => some c
  | none =>
  match searchLit11 "shorts/".toList u with
  | some c => some c
  | none => searchLit11 "youtu.be/".toList u

/-- Source `YouTubeAnalyzer.extract_video_id` (app.py 31-44). -/
def extract_video_id (url : String) : Option String :=
  (extract_video_idL url.toList).map String.mk

/-- The channel-marker substrings of the dispatch in `analyze`
(app.py 393). -/
def channelMarkers : List String :=
  ["youtube.com/channel/", "youtube.com/c/", "youtube.com/user/", "youtube.com/@"]

/-- The video-marker substrings of the dispatch in `analyze`
(app.py 407). -/
def videoMarkers : List String :=
  ["youtube.com/watch", "youtu.be/", "youtube.com/shorts/"]

/-- The substring-split fallback of `analyze` (app.py 396-403): tried only
when `extract_channel_id` returned `None`; covers `youtube.com/c/`,
`youtube.com/@` and `youtube.com/user/` — not `youtube.com/channel/`. -/
def channel_fallback (url : String) : Option String :=
  if pyIn "youtube.com/c/" url then
    some (pySplitHead (pySplitLast url "youtube.com/c/"))
  else if pyIn "youtube.com/@" url then
    some (pySplitHead (pySplitLast url "youtube.com/@"))
  else if pyIn "youtube.com/user/" url then
    some (pySplitHead (pySplitLast url "youtube.com/user/"))
  else none

/-- The channel identifier `analyze` ends up passing to
`get_channel_stats` (app.py 395-405); `none` models Python's `None`. -/
def channel_identifier_of (url : String) : Option String :=
  match extract_channel_id url with
  | some i => some i
  | none => channel_fallback url

/-- Outcome of the URL dispatch of `analyze` plus the corresponding
extraction (app.py 393-409). -/
inductive UrlClass where
  | channel (identifier : Option String)
  | video (videoId : Option String)
  | unsupported
deriving DecidableEq

/-- The classification-plus-extraction step of `analyze`
(app.py 393-412). -/
def classifyCE (url : String) : UrlClass :=
  if channelMarkers.any fun m => pyIn m url then
    .channel (channel_identifier_of url)
  else if videoMarkers.any fun m => pyIn m url then
    .video (extract_video_id url)
  else .unsupported

/-! ## The remote API oracle and the stats aggregator
(app.py 46-294 and 383-417) -/

/-- One remote request, as issued by the source (endpoint and the id/query
parameter that varies). -/
inductive RemoteCall where
  | searchCall (q : String)
  | channelsCall (id : String)
  | playlistCall (id : String)
  | videosCall (id : String)
  | commentsCall (id : String)
deriving DecidableEq

/-- The channel resource the `/channels` endpoint returns (the fields the
source reads).  `Option` fields model dict keys read with `.get`;
in particular `subscriberCount`, whose absence the source defaults to `0`
for display but to `1` inside `calculate_channel_engagement`. -/
structure ChannelResource where
  title : String
  description : String
  customUrl : String
  subscriberCount : Option Nat
  viewCount : Nat
  videoCount : Nat
  thumbnail : String
  country : Option String
  publishedAt : String
  uploads : String
deriving DecidableEq

/-- The video resource the `/videos` endpoint returns on the single-video
path (the fields `get_video_stats` reads; counts already carry the
`.get(..., 0)` defaults). -/
structure VideoResource where
  title : String
  description : String
  channelTitle : String
  channelId : String
  viewCount : Nat
  likeCount : Nat
  commentCount : Nat
  duration : String
  publishedAt : String
  thumbnail : String
  categoryId : String
  tags : List String
deriving DecidableEq

/-- A raw top-level comment as returned by `/commentThreads`. -/
structure RawComment where
  author : String
  text : String
  likes : Nat
  published_at : String
deriving DecidableEq

/-- A comment entry of the result (app.py 284-290). -/
structure CommentOut where
  author : String
  text : String
  likes : Nat
  published_at : String
  sentiment : String
deriving DecidableEq

/-- The remote YouTube API as an oracle: for each endpoint, `none` models
a failed call (network error, malformed JSON, missing key or zero items —
every case the source's `except`/emptiness checks collapse together). -/
structure Api where
  search : String → Option String
  channels : String → Option ChannelResource
  playlistItems : String → Option (List String)
  videos : String → Option VideoSummary
  videosFull : String → Option VideoResource
  commentThreads : String → Option (List RawComment)

/-- The resolution step of `get_channel_stats` (app.py 68-75, calling
`get_channel_id_from_custom_url`, app.py 46-66), together with the remote
calls it issues. -/
def resolve_channel (search : String → Option String) (identifier : String) :
    Option String × List RemoteCall :=
  if pyStartswith identifier "UC" && identifier.length == 24 then
    (some identifier, [])
  else
    (search identifier, [.searchCall identifier])

/-- Source `YouTubeAnalyzer.get_recent_videos` (app.py 126-150): one playlist
call, then one `/videos` call per item, keeping the per-video records that
succeed, in playlist order. -/
def get_recent_videos (api : Api) (playlistId : String) :
    List VideoSummary × List RemoteCall :=
  match api.playlistItems playlistId with
  | none => ([], [.playlistCall playlistId])
  | some ids =>
    (ids.filterMap api.videos,
     .playlistCall playlistId :: ids.map .videosCall)

/-- Source `YouTubeAnalyzer.get_video_comments` (app.py 265-294): a failed call
degrades to the empty list; each comment gets a sentiment tag. -/
def get_video_comments (fetched : Option (List RawComment)) : List CommentOut :=
  match fetched with
  | none => []
  | some items =>
    items.map fun c =>
      ⟨c.author, c.text, c.likes, c.published_at, analyze_sentiment c.text⟩

/-- The channel result dict (app.py 101-120). -/
structure ChannelBody where
  title : String
  description : String
  custom_url : String
  subscribers : String
  views : String
  videos : String
  thumbnail : String
  country : String
  published_at : String
  engagement_metrics : Option ChanEngMetrics
  recent_videos : List VideoSummary
  raw_subscribers : Nat
  raw_views : Nat
  raw_videos : Nat
deriving DecidableEq

/-- The video result dict (app.py 204-227). -/
structure VideoBody where
  title : String
  description : String
  channel_title : String
  channel_id : String
  views : String
  likes : String
  comments : String
  duration : String
  published_at : String
  thumbnail : String
  category_id : String
  tags : List String
  comments_data : List CommentOut
  engagement_metrics : VideoEngMetrics
  raw_views : Nat
  raw_likes : Nat
  raw_comments : Nat
  raw_duration : String
deriving DecidableEq

/-- Return value of `get_channel_stats`: Python `None` (app.py 75), the
failure dict (app.py 124), or the success dict. -/
inductive PyChanRes where
  | pyNone
  | failure (error : String)
  | success (body : ChannelBody)
deriving DecidableEq

/-- Source `YouTubeAnalyzer.get_channel_stats` (app.py 68-124).  Note the
source returns Python `None` — not a failure dict — when resolution
fails. -/
def get_channel_stats (api : Api) (identifier : String) :
    PyChanRes × List RemoteCall :=
  let r := resolve_channel api.search identifier
  match r.1 with
  | none => (.pyNone, r.2)
  | some channelId =>
    match api.channels channelId with
    | none => (.failure "Could not fetch channel data", r.2 ++ [.channelsCall channelId])
    | some res =>
      let recent := get_recent_videos api res.uploads
      let body : ChannelBody :=
        { title := res.title
          description := res.description
          custom_url := res.customUrl
          subscribers := format_number (.num (res.subscriberCount.getD 0))
          views := format_number (.num res.viewCount)
          videos := format_number (.num res.videoCount)
          thumbnail := res.thumbnail
          country := res.country.getD "Not specified"
          published_at := res.publishedAt
          engagement_metrics := calculate_channel_engagement recent.1 res.subscriberCount
          recent_videos := recent.1.take 5
          raw_subscribers := res.subscriberCount.getD 0
          raw_views := res.viewCount
          raw_videos := res.videoCount }
      (.success body, r.2 ++ [.channelsCall channelId] ++ recent.2)

/-- Return value of `get_video_stats`: the failure dict or the success
dict (this path never returns Python `None`). -/
inductive PyVidRes where
  | failure (error : String)
  | success (body : VideoBody)
deriving DecidableEq

/-- Source `YouTubeAnalyzer.get_video_stats` (app.py 174-231). -/
def get_video_stats (api : Api) (videoUrl : String) :
    PyVidRes × List RemoteCall :=
  match extract_video_id videoUrl with
  | none => (.failure "Invalid video URL", [])
  | some videoId =>
    match api.videosFull videoId with
    | none => (.failure "Could not fetch video data", [.videosCall videoId])
    | some res =>
      let body : VideoBody :=
        { title := res.title
          description := res.description
          channel_title := res.channelTitle
          channel_id := res.channelId
          views := format_number (.num res.viewCount)
          likes := format_number (.num res.likeCount)
          comments := format_number (.num res.commentCount)
          duration := res.duration
          published_at := res.publishedAt
          thumbnail := res.thumbnail
          category_id := res.categoryId
          tags := res.tags
          comments_data := get_video_comments (api.commentThreads videoId)
          engagement_metrics :=
            calculate_video_engagement res.viewCount res.likeCount res.commentCount
          raw_views := res.viewCount
          raw_likes := res.likeCount
          raw_comments := res.commentCount
          raw_duration := res.duration }
      (.success body, [.videosCall videoId, .commentsCall videoId])

/-- The serialized HTTP response of `/analyze` (app.py 383-417):
`jsonNull` is `jsonify(None)` — the JSON literal `null` — which the
source produces when `get_channel_stats` returns `None`. -/
inductive AnalyzeResponse where
  | jsonNull
  | failure (error : String)
  | channelSuccess (body : ChannelBody)
  | videoSuccess (body : VideoBody)
deriving DecidableEq

/-- The error message of the catch-all when `analyze` reaches
`get_channel_stats(None)` (the `AttributeError` Python raises on
`None.startswith`). -/
def noneStartswithMsg : String :=
  "Analysis failed: \x27NoneType\x27 object has no attribute \x27startswith\x27"

/-- The `/analyze` request handler (app.py 383-417), with the list of
remote calls the request issues.  `urlField` is the request's `url`
JSON field (`none` when absent). -/
def analyze (api : Api) (urlField : Option String) :
    AnalyzeResponse × List RemoteCall :=
  let url := pyStrip (urlField.getD "")
  if url = "" then (.failure "Please provide a URL", [])
  else
    match classifyCE url with
    | .channel none => (.failure noneStartswithMsg, [])
    | .channel (some identifier) =>
      match get_channel_stats api identifier with
      | (.pyNone, cs) => (.jsonNull, cs)
      | (.failure e, cs) => (.failure e, cs)
      | (.success b, cs) => (.channelSuccess b, cs)
    | .video _ =>
      match get_video_stats api url with
      | (.failure e, cs) => (.failure e, cs)
      | (.success b, cs) => (.videoSuccess b, cs)
    | .unsupported => (.failure "Unsupported URL format", [])

/-! ## Fixtures and spec-modelled definitions -/

/-- An oracle on which every remote call fails. -/
def noApi : Api :=
  { search := fun _ => none
    channels := fun _ => none
    playlistItems := fun _ => none
    videos := fun _ => none
    videosFull := fun _ => none
    commentThreads := fun _ => none }

/-- A concrete video resource used to exercise the video path. -/
def sampleVideoRes : VideoResource :=
  { title := "t", description := "d", channelTitle := "ct", channelId := "ci"
    viewCount := 100, likeCount := 10, commentCount := 5
    duration := "PT1M2S", publishedAt := "2020", thumbnail := "th"
    categoryId := "22", tags := [] }

/-- An oracle whose video fetch succeeds but whose comment fetch fails. -/
def c7Api : Api := { noApi with videosFull := fun _ => some sampleVideoRes }

/-- Written from the spec text (4.4): `engagement_rate =
(total_likes + total_comments) / max(subscriber_count, 1) * 100`; stated
for comparison against `calculate_channel_engagement`. -/
def spec_engagement_rate (likes comments subs : Nat) : ℚ :=
  ((likes : ℚ) + (comments : ℚ)) / ((max subs 1 : ℕ) : ℚ) * 100

/-- Written from the spec text (4.1): the claimed fallback ("splitting the
raw string on the marker and taking the first path segment after it") for
every channel marker, including `channel/`; stated for comparison against
`channel_fallback`. -/
def spec_channel_fallback (url : String) : Option String :=
  if pyIn "channel/" url then some (pySplitHead (pySplitLast url "channel/"))
  else if pyIn "/c/" url then some (pySplitHead (pySplitLast url "/c/"))
  else if pyIn "/user/" url then some (pySplitHead (pySplitLast url "/user/"))
  else if pyIn "/@" url then some (pySplitHead (pySplitLast url "/@"))
  else none

/-! ## Helper lemmas -/

theorem isPre_eq (p l : List Char) : isPre p l = p.isPrefixOf l := by
  induction p generalizing l with
  | nil => cases l <;> rfl
  | cons a as ih =>
    cases l with
    | nil => rfl
    | cons b bs => simp [isPre, List.isPrefixOf, ih]

theorem isPre_false_of_missing (p l : List Char) (b : Char) (hb : b ∈ p)
    (hl : ∀ x ∈ l, x ≠ b) : isPre p l = false := by
  rw [isPre_eq]
  cases hp : p.isPrefixOf l with
  | false => rfl
  | true =>
    have hpre : p <+: l := List.isPrefixOf_iff_prefix.mp hp
    exact (hl b (hpre.subset hb) rfl).elim

theorem searchAfterLit_none_of_vid (lit : List Char) (b : Char) (hb : b ∈ lit)
    (hbad : vidChar b = false) :
    ∀ l : List Char, l.all vidChar = true → searchAfterLit lit l = none := by
  intro l
  induction l with
  | nil => intro _; rfl
  | cons c cs ih =>
    intro hall
    have hmem : ∀ x ∈ c :: cs, vidChar x = true := List.all_eq_true.mp hall
    have hnp : isPre lit (c :: cs) = false :=
      isPre_false_of_missing lit (c :: cs) b hb fun x hx hxb => by
        subst hxb
        exact absurd (hmem x hx) (by simp [hbad])
    have htail : cs.all vidChar = true := by
      rw [List.all_cons, Bool.and_eq_true] at hall
      exact hall.2
    simp only [searchAfterLit, hnp, Bool.false_eq_true, if_false]
    exact ih htail

theorem containsSub_false_of_vid (pat : List Char) (b : Char) (hb : b ∈ pat)
    (hbad : vidChar b = false) :
    ∀ l : List Char, l.all vidChar = true → containsSub pat l = false := by
  intro l
  induction l with
  | nil =>
    intro _
    cases pat with
    | nil => exact absurd hb (List.not_mem_nil b)
    | cons p ps => rfl
  | cons c cs ih =>
    intro hall
    have hmem : ∀ x ∈ c :: cs, vidChar x = true := List.all_eq_true.mp hall
    have hnp : isPre pat (c :: cs) = false :=
      isPre_false_of_missing pat (c :: cs) b hb fun x hx hxb => by
        subst hxb
        exact absurd (hmem x hx) (by simp [hbad])
    have htail : cs.all vidChar = true := by
      rw [List.all_cons, Bool.and_eq_true] at hall
      exact hall.2
    simp only [containsSub, hnp, Bool.false_or]
    exact ih htail

theorem take11_of (l : List Char) (h1 : l.length = 11) (h2 : l.all vidChar = true) :
    take11 l = some l := by
  have ht : l.take 11 = l := List.take_of_length_le (Nat.le_of_eq h1)
  simp [take11, ht, h2, h1]

theorem takeWhile_of_all (p : Char → Bool) (l : List Char) (h : l.all p = true) :
    l.takeWhile p = l :=
  List.takeWhile_eq_self_iff.mpr (List.all_eq_true.mp h)

theorem vidChar_chanCapture (c : Char) (h : vidChar c = true) : chanCapture c = true := by
  unfold chanCapture
  have h1 : c ≠ '/' := fun e => absurd (e ▸ h) (by decide)
  have h2 : c ≠ '?' := fun e => absurd (e ▸ h) (by decide)
  have h3 : c ≠ '&' := fun e => absurd (e ▸ h) (by decide)
  simp [h1, h2, h3]

theorem all_chanCapture_of_vid (l : List Char) (h : l.all vidChar = true) :
    l.takeWhile chanCapture = l :=
  takeWhile_of_all chanCapture l
    (List.all_eq_true.mpr fun x hx => vidChar_chanCapture x (List.all_eq_true.mp h x hx))

/-! ### Concrete-prefix reduction lemmas for the URL scanners.
Each is proved by `rfl`: the scan over the concrete URL prefix reduces
definitionally, leaving only the symbolic identifier tail. -/

theorem sal_chan1_hit (l : List Char) :
    searchAfterLit "youtube.com/channel/".toList
        ("https://www.youtube.com/channel/".toList ++ l)
      = (if (l.takeWhile chanCapture).isEmpty then
          searchAfterLit "youtube.com/channel/".toList
            ("outube.com/channel/".toList ++ l)
        else some (l.takeWhile chanCapture)) := rfl

theorem sal_chan1_handle (l : List Char) :
    searchAfterLit "youtube.com/channel/".toList
        ("https://www.youtube.com/@".toList ++ l)
      = searchAfterLit "youtube.com/channel/".toList l := rfl

theorem sal_chan2_handle (l : List Char) :
    searchAfterLit "youtube.com/c/".toList
        ("https://www.youtube.com/@".toList ++ l)
      = searchAfterLit "youtube.com/c/".toList l := rfl

theorem sal_chan3_handle (l : List Char) :
    searchAfterLit "youtube.com/user/".toList
        ("https://www.youtube.com/@".toList ++ l)
      = searchAfterLit "youtube.com/user/".toList l := rfl

theorem sal_chan4_hit (l : List Char) :
    searchAfterLit "youtube.com/@".toList
        ("https://www.youtube.com/@".toList ++ l)
      = (if (l.takeWhile chanCapture).isEmpty then
          searchAfterLit "youtube.com/@".toList ("outube.com/@".toList ++ l)
        else some (l.takeWhile chanCapture)) := rfl

theorem sv_watch (l : List Char) :
    searchVidP1 ("https://www.youtube.com/watch?v=".toList ++ l)
      = (match take11 l with
         | some capt => some capt
         | none => searchVidP1 ('=' :: l)) := rfl

theorem sv_be (l : List Char) :
    searchVidP1 ("https://youtu.be/".toList ++ l)
      = (match take11 l with
         | some capt => some capt
         | none => searchVidP1 l) := rfl

theorem sv_shorts (l : List Char) :
    searchVidP1 ("https://www.youtube.com/shorts/".toList ++ l)
      = (match take11 l with
         | some capt => some capt
         | none => searchVidP1 l) := rfl

theorem csub_chan1_hit (l : List Char) :
    containsSub "youtube.com/channel/".toList
        ("https://www.youtube.com/channel/".toList ++ l) = true := rfl

theorem csub_chan4_hit (l : List Char) :
    containsSub "youtube.com/@".toList
        ("https://www.youtube.com/@".toList ++ l) = true := rfl

theorem csub_watch_hit (l : List Char) :
    containsSub "youtube.com/watch".toList
        ("https://www.youtube.com/watch?v=".toList ++ l) = true := rfl

theorem csub_be_hit (l : List Char) :
    containsSub "youtu.be/".toList ("https://youtu.be/".toList ++ l) = true := rfl

theorem csub_shorts_hit (l : List Char) :
    containsSub "youtube.com/shorts/".toList
        ("https://www.youtube.com/shorts/".toList ++ l) = true := rfl

theorem csub_m1_watch (l : List Char) :
    containsSub "youtube.com/channel/".toList
        ("https://www.youtube.com/watch?v=".toList ++ l)
      = containsSub "youtube.com/channel/".toList l := rfl

theorem csub_m2_watch (l : List Char) :
    containsSub "youtube.com/c/".toList
        ("https://www.youtube.com/watch?v=".toList ++ l)
      = containsSub "youtube.com/c/".toList l := rfl

theorem csub_m3_watch (l : List Char) :
    containsSub "youtube.com/user/".toList
        ("https://www.youtube.com/watch?v=".toList ++ l)
      = containsSub "youtube.com/user/".toList l := rfl

theorem csub_m4_watch (l : List Char) :
    containsSub "youtube.com/@".toList
        ("https://www.youtube.com/watch?v=".toList ++ l)
      = containsSub "youtube.com/@".toList l := rfl

theorem csub_m1_be (l : List Char) :
    containsSub "youtube.com/channel/".toList ("https://youtu.be/".toList ++ l)
      = containsSub "youtube.com/channel/".toList l := rfl

theorem csub_m2_be (l : List Char) :
    containsSub "youtube.com/c/".toList ("https://youtu.be/".toList ++ l)
      = containsSub "youtube.com/c/".toList l := rfl

theorem csub_m3_be (l : List Char) :
    containsSub "youtube.com/user/".toList ("https://youtu.be/".toList ++ l)
      = containsSub "youtube.com/user/".toList l := rfl

theorem csub_m4_be (l : List Char) :
    containsSub "youtube.com/@".toList ("https://youtu.be/".toList ++ l)
      = containsSub "youtube.com/@".toList l := rfl

theorem csub_m1_shorts (l : List Char) :
    containsSub "youtube.com/channel/".toList
        ("https://www.youtube.com/shorts/".toList ++ l)
      = containsSub "youtube.com/channel/".toList l := rfl

theorem csub_m2_shorts (l : List Char) :
    containsSub "youtube.com/c/".toList
        ("https://www.youtube.com/shorts/".toList ++ l)
      = containsSub "youtube.com/c/".toList l := rfl

theorem csub_m3_shorts (l : List Char) :
    containsSub "youtube.com/user/".toList
        ("https://www.youtube.com/shorts/".toList ++ l)
      = containsSub "youtube.com/user/".toList l := rfl

theorem csub_m4_shorts (l : List Char) :
    containsSub "youtube.com/@".toList
        ("https://www.youtube.com/shorts/".toList ++ l)
      = containsSub "youtube.com/@".toList l := rfl

/-- False channel-marker test for a video URL built from a concrete
prefix and an identifier drawn from `[0-9A-Za-z_-]`. -/
theorem pyIn_marker_false (m pre t : String) (b : Char)
    (hb : b ∈ m.toList) (hbad : vidChar b = false)
    (hskip : containsSub m.toList (pre.toList ++ t.toList)
      = containsSub m.toList t.toList)
    (hall : t.toList.all vidChar = true) :
    pyIn m (pre ++ t) = false := by
  show containsSub m.toList ((pre ++ t).toList) = false
  rw [show (pre ++ t).toList = pre.toList ++ t.toList from rfl, hskip]
  exact containsSub_false_of_vid _ b hb hbad _ hall

/-! ### Round-trip of the classifier on each supported URL shape -/

theorem chanShape_channel (cid : String) (hUC : ∃ t, cid.toList = 'U' :: 'C' :: t)
    (hall : cid.toList.all vidChar = true) :
    classifyCE ("https://www.youtube.com/channel/" ++ cid) = .channel (some cid) := by
  have hurl : ("https://www.youtube.com/channel/" ++ cid).toList
      = "https://www.youtube.com/channel/".toList ++ cid.toList := rfl
  have htw : cid.toList.takeWhile chanCapture = cid.toList := all_chanCapture_of_vid _ hall
  have hne : cid.toList.isEmpty = false := by
    obtain ⟨t, ht⟩ := hUC
    rw [ht]
    rfl
  have hs : searchAfterLit "youtube.com/channel/".toList
      ("https://www.youtube.com/channel/".toList ++ cid.toList) = some cid.toList := by
    rw [sal_chan1_hit, htw, hne]
    simp
  have hx : extract_channel_id ("https://www.youtube.com/channel/" ++ cid) = some cid := by
    unfold extract_channel_id extract_channel_idL
    rw [hurl, hs]
    rfl
  have hany : (channelMarkers.any fun m =>
      pyIn m ("https://www.youtube.com/channel/" ++ cid)) = true := by
    simp only [List.any_eq_true]
    refine ⟨"youtube.com/channel/", by simp [channelMarkers], ?_⟩
    show containsSub "youtube.com/channel/".toList
      (("https://www.youtube.com/channel/" ++ cid).toList) = true
    rw [hurl]
    exact csub_chan1_hit cid.toList
  unfold classifyCE
  rw [hany]
  simp [channel_identifier_of, hx]

theorem chanShape_handle (handle : String) (hne : handle.toList ≠ [])
    (hall : handle.toList.all vidChar = true) :
    classifyCE ("https://www.youtube.com/@" ++ handle) = .channel (some handle) := by
  have hurl : ("https://www.youtube.com/@" ++ handle).toList
      = "https://www.youtube.com/@".toList ++ handle.toList := rfl
  have htw : handle.toList.takeWhile chanCapture = handle.toList :=
    all_chanCapture_of_vid _ hall
  have hemp : handle.toList.isEmpty = false := by
    cases h : handle.toList with
    | nil => exact absurd h hne
    | cons c cs => rfl
  have hs1 : searchAfterLit "youtube.com/channel/".toList
      ("https://www.youtube.com/@".toList ++ handle.toList) = none := by
    rw [sal_chan1_handle]
    exact searchAfterLit_none_of_vid _ '.' (by decide) (by decide) _ hall
  have hs2 : searchAfterLit "youtube.com/c/".toList
      ("https://www.youtube.com/@".toList ++ handle.toList) = none := by
    rw [sal_chan2_handle]
    exact searchAfterLit_none_of_vid _ '.' (by decide) (by decide) _ hall
  have hs3 : searchAfterLit "youtube.com/user/".toList
      ("https://www.youtube.com/@".toList ++ handle.toList) = none := by
    rw [sal_chan3_handle]
    exact searchAfterLit_none_of_vid _ '.' (by decide) (by decide) _ hall
  have hs4 : searchAfterLit "youtube.com/@".toList
      ("https://www.youtube.com/@".toList ++ handle.toList) = some handle.toList := by
    rw [sal_chan4_hit, htw, hemp]
    simp
  have hx : extract_channel_id ("https://www.youtube.com/@" ++ handle) = some handle := by
    unfold extract_channel_id extract_channel_idL
    rw [hurl, hs1, hs2, hs3, hs4]
    rfl
  have hany : (channelMarkers.any fun m =>
      pyIn m ("https://www.youtube.com/@" ++ handle)) = true := by
    simp only [List.any_eq_true]
    refine ⟨"youtube.com/@", by simp [channelMarkers], ?_⟩
    show containsSub "youtube.com/@".toList
      (("https://www.youtube.com/@" ++ handle).toList) = true
    rw [hurl]
    exact csub_chan4_hit handle.toList
  unfold classifyCE
  rw [hany]
  simp [channel_identifier_of, hx]

theorem vidShape_watch (vid : String) (hlen : vid.length = 11)
    (hall : vid.toList.all vidChar = true) :
    classifyCE ("https://www.youtube.com/watch?v=" ++ vid) = .video (some vid) := by
  have hurl : ("https://www.youtube.com/watch?v=" ++ vid).toList
      = "https://www.youtube.com/watch?v=".toList ++ vid.toList := rfl
  have ht : take11 vid.toList = some vid.toList := take11_of _ hlen hall
  have e1 := pyIn_marker_false "youtube.com/channel/" "https://www.youtube.com/watch?v="
    vid '.' (by decide) (by decide) (csub_m1_watch vid.toList) hall
  have e2 := pyIn_marker_false "youtube.com/c/" "https://www.youtube.com/watch?v="
    vid '.' (by decide) (by decide) (csub_m2_watch vid.toList) hall
  have e3 := pyIn_marker_false "youtube.com/user/" "https://www.youtube.com/watch?v="
    vid '.' (by decide) (by decide) (csub_m3_watch vid.toList) hall
  have e4 := pyIn_marker_false "youtube.com/@" "https://www.youtube.com/watch?v="
    vid '.' (by decide) (by decide) (csub_m4_watch vid.toList) hall
  have hch : (channelMarkers.any fun m =>
      pyIn m ("https://www.youtube.com/watch?v=" ++ vid)) = false := by
    simp [channelMarkers, e1, e2, e3, e4]
  have hv : (videoMarkers.any fun m =>
      pyIn m ("https://www.youtube.com/watch?v=" ++ vid)) = true := by
    simp only [List.any_eq_true]
    refine ⟨"youtube.com/watch", by simp [videoMarkers], ?_⟩
    show containsSub "youtube.com/watch".toList
      (("https://www.youtube.com/watch?v=" ++ vid).toList) = true
    rw [hurl]
    exact csub_watch_hit vid.toList
  have hx : extract_video_id ("https://www.youtube.com/watch?v=" ++ vid) = some vid := by
    unfold extract_video_id extract_video_idL
    rw [hurl, sv_watch, ht]
    rfl
  unfold classifyCE
  rw [hch, hv]
  simp [hx]

theorem vidShape_be (vid : String) (hlen : vid.length = 11)
    (hall : vid.toList.all vidChar = true) :
    classifyCE ("https://youtu.be/" ++ vid) = .video (some vid) := by
  have hurl : ("https://youtu.be/" ++ vid).toList
      = "https://youtu.be/".toList ++ vid.toList := rfl
  have ht : take11 vid.toList = some vid.toList := take11_of _ hlen hall
  have e1 := pyIn_marker_false "youtube.com/channel/" "https://youtu.be/"
    vid '.' (by decide) (by decide) (csub_m1_be vid.toList) hall
  have e2 := pyIn_marker_false "youtube.com/c/" "https://youtu.be/"
    vid '.' (by decide) (by decide) (csub_m2_be vid.toList) hall
  have e3 := pyIn_marker_false "youtube.com/user/" "https://youtu.be/"
    vid '.' (by decide) (by decide) (csub_m3_be vid.toList) hall
  have e4 := pyIn_marker_false "youtube.com/@" "https://youtu.be/"
    vid '.' (by decide) (by decide) (csub_m4_be vid.toList) hall
  have hch : (channelMarkers.any fun m => pyIn m ("https://youtu.be/" ++ vid)) = false := by
    simp [channelMarkers, e1, e2, e3, e4]
  have hv : (videoMarkers.any fun m => pyIn m ("https://youtu.be/" ++ vid)) = true := by
    simp only [List.any_eq_true]
    refine ⟨"youtu.be/", by simp [videoMarkers], ?_⟩
    show containsSub "youtu.be/".toList (("https://youtu.be/" ++ vid).toList) = true
    rw [hurl]
    exact csub_be_hit vid.toList
  have hx : extract_video_id ("https://youtu.be/" ++ vid) = some vid := by
    unfold extract_video_id extract_video_idL
    rw [hurl, sv_be, ht]
    rfl
  unfold classifyCE
  rw [hch, hv]
  simp [hx]

theorem vidShape_shorts (vid : String) (hlen : vid.length = 11)
    (hall : vid.toList.all vidChar = true) :
    classifyCE ("https://www.youtube.com/shorts/" ++ vid) = .video (some vid) := by
  have hurl : ("https://www.youtube.com/shorts/" ++ vid).toList
      = "https://www.youtube.com/shorts/".toList ++ vid.toList := rfl
  have ht : take11 vid.toList = some vid.toList := take11_of _ hlen hall
  have e1 := pyIn_marker_false "youtube.com/channel/" "https://www.youtube.com/shorts/"
    vid '.' (by decide) (by decide) (csub_m1_shorts vid.toList) hall
  have e2 := pyIn_marker_false "youtube.com/c/" "https://www.youtube.com/shorts/"
    vid '.' (by decide) (by decide) (csub_m2_shorts vid.toList) hall
  have e3 := pyIn_marker_false "youtube.com/user/" "https://www.youtube.com/shorts/"
    vid '.' (by decide) (by decide) (csub_m3_shorts vid.toList) hall
  have e4 := pyIn_marker_false "youtube.com/@" "https://www.youtube.com/shorts/"
    vid '.' (by decide) (by decide) (csub_m4_shorts vid.toList) hall
  have hch : (channelMarkers.any fun m =>
      pyIn m ("https://www.youtube.com/shorts/" ++ vid)) = false := by
    simp [channelMarkers, e1, e2, e3, e4]
  have hv : (videoMarkers.any fun m =>
      pyIn m ("https://www.youtube.com/shorts/" ++ vid)) = true := by
    simp only [List.any_eq_true]
    refine ⟨"youtube.com/shorts/", by simp [videoMarkers], ?_⟩
    show containsSub "youtube.com/shorts/".toList
      (("https://www.youtube.com/shorts/" ++ vid).toList) = true
    rw [hurl]
    exact csub_shorts_hit vid.toList
  have hx : extract_video_id ("https://www.youtube.com/shorts/" ++ vid) = some vid := by
    unfold extract_video_id extract_video_idL
    rw [hurl, sv_shorts, ht]
    rfl
  unfold classifyCE
  rw [hch, hv]
  simp [hx]

/-! ## Claim theorems -/

/-- Claim C2: for every identifier that starts with `UC` and has exactly
24 characters, channel resolution returns the input unchanged and issues
zero remote calls; for every other identifier it issues exactly one
remote search call and returns its outcome. -/
theorem C2_resolution (search : String → Option String) (identifier : String) :
    (pyStartswith identifier "UC" = true → identifier.length = 24 →
      resolve_channel search identifier = (some identifier, []))
    ∧ (¬ (pyStartswith identifier "UC" = true ∧ identifier.length = 24) →
      resolve_channel search identifier
        = (search identifier, [.searchCall identifier])) := by
  constructor
  · intro h1 h2
    have hc : (pyStartswith identifier "UC" && identifier.length == 24) = true := by
      simp [h1, h2]
    simp [resolve_channel, hc]
  · intro hn
    cases hb : (pyStartswith identifier "UC" && identifier.length == 24) with
    | true =>
      rw [Bool.and_eq_true] at hb
      exact absurd ⟨hb.1, by simpa using hb.2⟩ hn
    | false => simp [resolve_channel, hb]

/-- Witness for C2 at concrete inputs: a canonical id resolves in place
with no calls; a non-canonical handle issues exactly one search call. -/
theorem C2_resolution_witness :
    pyStartswith "UCabcdefghijklmnopqrstuv" "UC" = true
    ∧ "UCabcdefghijklmnopqrstuv".length = 24
    ∧ resolve_channel (fun _ => none) "UCabcdefghijklmnopqrstuv"
        = (some "UCabcdefghijklmnopqrstuv", [])
    ∧ resolve_channel (fun _ => none) "somehandle"
        = (none, [.searchCall "somehandle"]) :=
  ⟨by decide, by decide,
   (C2_resolution (fun _ => none) "UCabcdefghijklmnopqrstuv").1 (by decide) (by decide),
   (C2_resolution (fun _ => none) "somehandle").2 (by decide)⟩

/-- Claim C3: classifier round-trip.  For each of the five supported URL
shapes — `channel/UC...`, `/@handle`, `watch?v=<11>`, `youtu.be/<11>`,
`shorts/<11>`, with the identifier drawn from `[0-9A-Za-z_-]` —
classification followed by extraction recovers exactly the embedded
identifier. -/
theorem C3_roundtrip :
    (∀ cid : String, (∃ t, cid.toList = 'U' :: 'C' :: t) →
       cid.toList.all vidChar = true →
       classifyCE ("https://www.youtube.com/channel/" ++ cid) = .channel (some cid))
    ∧ (∀ handle : String, handle.toList ≠ [] → handle.toList.all vidChar = true →
       classifyCE ("https://www.youtube.com/@" ++ handle) = .channel (some handle))
    ∧ (∀ vid : String, vid.length = 11 → vid.toList.all vidChar = true →
       classifyCE ("https://www.youtube.com/watch?v=" ++ vid) = .video (some vid))
    ∧ (∀ vid : String, vid.length = 11 → vid.toList.all vidChar = true →
       classifyCE ("https://youtu.be/" ++ vid) = .video (some vid))
    ∧ (∀ vid : String, vid.length = 11 → vid.toList.all vidChar = true →
       classifyCE ("https://www.youtube.com/shorts/" ++ vid) = .video (some vid)) :=
  ⟨chanShape_channel, chanShape_handle, vidShape_watch, vidShape_be, vidShape_shorts⟩

/-- Witness for C3: the round-trip at one concrete URL of each shape. -/
theorem C3_roundtrip_witness :
    classifyCE "https://www.youtube.com/channel/UCabcdefghijklmnopqrstuv"
      = .channel (some "UCabcdefghijklmnopqrstuv")
    ∧ classifyCE "https://www.youtube.com/@somehandle" = .channel (some "somehandle")
    ∧ classifyCE "https://www.youtube.com/watch?v=dQw4w9WgXcQ" = .video (some "dQw4w9WgXcQ")
    ∧ classifyCE "https://youtu.be/dQw4w9WgXcQ" = .video (some "dQw4w9WgXcQ")
    ∧ classifyCE "https://www.youtube.com/shorts/dQw4w9WgXcQ" = .video (some "dQw4w9WgXcQ") :=
  ⟨C3_roundtrip.1 "UCabcdefghijklmnopqrstuv" ⟨_, rfl⟩ (by decide),
   C3_roundtrip.2.1 "somehandle" (by decide) (by decide),
   C3_roundtrip.2.2.1 "dQw4w9WgXcQ" (by decide) (by decide),
   C3_roundtrip.2.2.2.1 "dQw4w9WgXcQ" (by decide) (by decide),
   C3_roundtrip.2.2.2.2 "dQw4w9WgXcQ" (by decide) (by decide)⟩

/-- Claim C9: a missing, empty, or whitespace-only `url` field yields
exactly `{"success": false, "error": "Please provide a URL"}` and zero
remote calls (the response is the same for every oracle, and the call
log is empty). -/
theorem C9_empty_url (api : Api) (u : Option String)
    (h : u = none ∨ ∃ s, u = some s ∧ pyStrip s = "") :
    analyze api u = (.failure "Please provide a URL", []) := by
  rcases h with rfl | ⟨s, rfl, hs⟩
  · rfl
  · unfold analyze
    simp [hs]

/-- Witness for C9 at a whitespace-only url field. -/
theorem C9_empty_url_witness :
    ((some "   " : Option String) = none
      ∨ ∃ s, (some "   " : Option String) = some s ∧ pyStrip s = "")
    ∧ analyze noApi (some "   ") = (.failure "Please provide a URL", []) :=
  ⟨Or.inr ⟨"   ", rfl, rfl⟩, C9_empty_url noApi (some "   ") (Or.inr ⟨"   ", rfl, rfl⟩)⟩

/-- Counterexample to claim C1 as stated: on a channel URL whose
identifier cannot be resolved, the pipeline does **not** return a
`{"success": false, ...}` object — `get_channel_stats` returns Python
`None` (app.py 75) and the boundary serializes it as the JSON literal
`null`, so the boundary does return a non-`AnalysisResult` value. -/
theorem C1_counterexample :
    analyze noApi (some "https://www.youtube.com/@somehandle")
      = (.jsonNull, [.searchCall "somehandle"])
    ∧ ∀ e : String, (AnalyzeResponse.jsonNull ≠ .failure e) := by
  refine ⟨rfl, ?_⟩
  intro e h
  exact AnalyzeResponse.noConfusion h

/-- Claim C1 amended: for every channel identifier that is not canonical
and for which the remote search resolves nothing, `get_channel_stats`
returns Python `None` after exactly one search call, and `/analyze`
answers any request classified to that identifier with the JSON literal
`null` — not with a failure object. -/
theorem C1_null_on_resolution_failure (api : Api) (identifier : String)
    (hnc : (pyStartswith identifier "UC" && identifier.length == 24) = false)
    (hsearch : api.search identifier = none) :
    get_channel_stats api identifier = (.pyNone, [.searchCall identifier])
    ∧ ∀ url : String, pyStrip url = url → url ≠ "" →
        classifyCE url = .channel (some identifier) →
        analyze api (some url) = (.jsonNull, [.searchCall identifier]) := by
  have hres : resolve_channel api.search identifier
      = (none, [.searchCall identifier]) := by
    simp [resolve_channel, hnc, hsearch]
  have hgc : get_channel_stats api identifier = (.pyNone, [.searchCall identifier]) := by
    unfold get_channel_stats
    rw [hres]
  refine ⟨hgc, ?_⟩
  intro url hstrip hne hcls
  unfold analyze
  simp only [Option.getD_some]
  rw [hstrip, if_neg hne, hcls]
  simp only [hgc]

/-- Witness for the amended C1 at a concrete handle URL and an oracle
whose search fails. -/
theorem C1_null_witness :
    (pyStartswith "somehandle" "UC" && "somehandle".length == 24) = false
    ∧ noApi.search "somehandle" = none
    ∧ pyStrip "https://www.youtube.com/@somehandle" = "https://www.youtube.com/@somehandle"
    ∧ classifyCE "https://www.youtube.com/@somehandle" = .channel (some "somehandle")
    ∧ analyze noApi (some "https://www.youtube.com/@somehandle")
        = (.jsonNull, [.searchCall "somehandle"]) :=
  ⟨by decide, rfl, rfl, rfl,
   (C1_null_on_resolution_failure noApi "somehandle" (by decide) rfl).2
     "https://www.youtube.com/@somehandle" rfl (by decide) rfl⟩

/-- Claim C7: on the video path, when the primary `/videos` fetch
succeeds and the secondary comment fetch fails, the result is still a
success object whose comment list is empty — the comment failure never
aborts the video result. -/
theorem C7_comment_failure_degrades (api : Api) (url videoId : String)
    (res : VideoResource)
    (hx : extract_video_id url = some videoId)
    (hv : api.videosFull videoId = some res)
    (hc : api.commentThreads videoId = none) :
    ∃ body : VideoBody,
      get_video_stats api url
        = (.success body, [.videosCall videoId, .commentsCall videoId])
      ∧ body.comments_data = [] := by
  unfold get_video_stats
  rw [hx]
  simp only [hv]
  refine ⟨_, rfl, ?_⟩
  show get_video_comments (api.commentThreads videoId) = []
  rw [hc]
  rfl

/-- Witness for C7 at a concrete video URL, resource and failing comment
oracle. -/
theorem C7_comment_failure_witness :
    extract_video_id "https://youtu.be/dQw4w9WgXcQ" = some "dQw4w9WgXcQ"
    ∧ c7Api.videosFull "dQw4w9WgXcQ" = some sampleVideoRes
    ∧ c7Api.commentThreads "dQw4w9WgXcQ" = none
    ∧ ∃ body : VideoBody,
        get_video_stats c7Api "https://youtu.be/dQw4w9WgXcQ"
          = (.success body, [.videosCall "dQw4w9WgXcQ", .commentsCall "dQw4w9WgXcQ"])
        ∧ body.comments_data = [] :=
  ⟨rfl, rfl, rfl,
   C7_comment_failure_degrades c7Api "https://youtu.be/dQw4w9WgXcQ" "dQw4w9WgXcQ"
     sampleVideoRes rfl rfl rfl⟩

/-- Counterexample to claim C8 as stated: the fallback pass does **not**
exist for the `channel/` marker.  On `https://youtube.com/channel/?x`
every extraction regex fails and the marker `channel/` is present, yet the
dispatch leaves the identifier unset (`None`), while the claimed
marker-splitting fallback would produce `"?x"`. -/
theorem C8_counterexample :
    classifyCE "https://youtube.com/channel/?x" = .channel none
    ∧ pyIn "channel/" "https://youtube.com/channel/?x" = true
    ∧ extract_channel_id "https://youtube.com/channel/?x" = none
    ∧ spec_channel_fallback "https://youtube.com/channel/?x" = some "?x"
    ∧ UrlClass.channel none ≠ UrlClass.channel (some "?x") := by
  refine ⟨rfl, rfl, rfl, rfl, ?_⟩
  intro h
  simp at h

/-- Claim C8 amended: when every extraction regex fails, the fallback
splitting pass exists exactly for the markers `youtube.com/c/`,
`youtube.com/@` and `youtube.com/user/`, tried in that order; when none
of those three is present — even if `channel/` is — the identifier stays
`None`. -/
theorem C8_fallback_subset (url : String) (hx : extract_channel_id url = none) :
    (pyIn "youtube.com/c/" url = true →
       channel_identifier_of url = some (pySplitHead (pySplitLast url "youtube.com/c/")))
    ∧ (pyIn "youtube.com/c/" url = false → pyIn "youtube.com/@" url = true →
       channel_identifier_of url = some (pySplitHead (pySplitLast url "youtube.com/@")))
    ∧ (pyIn "youtube.com/c/" url = false → pyIn "youtube.com/@" url = false →
       pyIn "youtube.com/user/" url = true →
       channel_identifier_of url
         = some (pySplitHead (pySplitLast url "youtube.com/user/")))
    ∧ (pyIn "youtube.com/c/" url = false → pyIn "youtube.com/@" url = false →
       pyIn "youtube.com/user/" url = false →
       channel_identifier_of url = none) := by
  have hbase : channel_identifier_of url = channel_fallback url := by
    unfold channel_identifier_of
    rw [hx]
  refine ⟨fun h1 => ?_, fun h1 h2 => ?_, fun h1 h2 h3 => ?_, fun h1 h2 h3 => ?_⟩ <;>
    rw [hbase] <;> simp [channel_fallback, h1]
  · simp [h2]
  · simp [h2, h3]
  · simp [h2, h3]

/-- Witness for the amended C8: the `/c/` fallback fires on a URL the
regexes reject, and a `channel/`-only URL yields no identifier. -/
theorem C8_fallback_witness :
    extract_channel_id "https://youtube.com/c/" = none
    ∧ pyIn "youtube.com/c/" "https://youtube.com/c/" = true
    ∧ channel_identifier_of "https://youtube.com/c/"
        = some (pySplitHead (pySplitLast "https://youtube.com/c/" "youtube.com/c/"))
    ∧ extract_channel_id "https://youtube.com/channel/?x" = none
    ∧ pyIn "youtube.com/c/" "https://youtube.com/channel/?x" = false
    ∧ pyIn "youtube.com/@" "https://youtube.com/channel/?x" = false
    ∧ pyIn "youtube.com/user/" "https://youtube.com/channel/?x" = false
    ∧ channel_identifier_of "https://youtube.com/channel/?x" = none :=
  ⟨rfl, rfl,
   (C8_fallback_subset "https://youtube.com/c/" rfl).1 rfl,
   rfl, rfl, rfl, rfl,
   (C8_fallback_subset "https://youtube.com/channel/?x" rfl).2.2.2 rfl rfl rfl⟩

theorem fmt2_zero : fmtFixed 2 0 = "0.00" :=
  (fmtFixed_eq 2 0 0 (by norm_num [roundHalfEven])).trans rfl

/-- Evaluation form of `calculate_channel_engagement` on a non-empty
video list. -/
theorem calc_chan_eng_cons (v : VideoSummary) (vs : List VideoSummary)
    (subs? : Option Nat) :
    calculate_channel_engagement (v :: vs) subs? = some
      { avg_views_per_video := format_number (.num
          (⌊(totalViews (v :: vs) : ℚ) / (((v :: vs).length : ℕ) : ℚ)⌋).toNat)
        engagement_rate := fmtFixed 2 (if 0 < subs?.getD 1 then
          ((totalLikes (v :: vs) : ℚ) + (totalComments (v :: vs) : ℚ))
            / ((subs?.getD 1 : ℕ) : ℚ) * 100 else 0) ++ "%"
        total_recent_views := format_number (.num (totalViews (v :: vs)))
        total_recent_likes := format_number (.num (totalLikes (v :: vs)))
        total_recent_comments := format_number (.num (totalComments (v :: vs))) } := by
  unfold calculate_channel_engagement
  rw [if_neg (by simp)]

/-- Counterexample to claim C4 as stated: with one recent video
(10 views, 1 like, 0 comments) and subscriber count 0, the code renders
`engagement_rate = "0.00%"` (its guard returns 0 for zero subscribers),
while the claimed formula `(likes+comments)/max(subs,1)*100` renders
`"100.00%"`. -/
theorem C4_counterexample :
    calculate_channel_engagement [⟨"t", "2020", 10, 1, 0⟩] (some 0)
      = some ⟨"10", "0.00%", "10", "1", "0"⟩
    ∧ fmtFixed 2 (spec_engagement_rate 1 0 0) ++ "%" = "100.00%"
    ∧ ("0.00%" : String) ≠ "100.00%" := by
  refine ⟨?_, ?_, by decide⟩
  · rw [calc_chan_eng_cons]
    norm_num [totalViews, totalLikes, totalComments, fmt2_zero]
    exact ⟨rfl, rfl, rfl, rfl, rfl⟩
  · have h : fmtFixed 2 (spec_engagement_rate 1 0 0) = "100.00" :=
      (fmtFixed_eq 2 _ 10000 (by norm_num [roundHalfEven, spec_engagement_rate])).trans rfl
    rw [h]
    rfl

/-- Claim C4 amended: for a non-empty video list, `avg_views =
total_views/count` (floored into the number formatter, as the code does)
and `engagement_rate = (total_likes+total_comments)/subs*100` when
`subs > 0`, else `0` — the guard is a conditional, not `max(subs,1)`;
for an empty list the result is the empty metrics object (`none`), not an
error. -/
theorem C4_channel_engagement (videos : List VideoSummary) (subs : Nat) :
    (videos ≠ [] →
      calculate_channel_engagement videos (some subs) = some
        { avg_views_per_video := format_number (.num
            (⌊(totalViews videos : ℚ) / ((videos.length : ℕ) : ℚ)⌋).toNat)
          engagement_rate := fmtFixed 2 (if 0 < subs then
            ((totalLikes videos : ℚ) + (totalComments videos : ℚ))
              / ((subs : ℕ) : ℚ) * 100 else 0) ++ "%"
          total_recent_views := format_number (.num (totalViews videos))
          total_recent_likes := format_number (.num (totalLikes videos))
          total_recent_comments := format_number (.num (totalComments videos)) })
    ∧ calculate_channel_engagement [] (some subs) = none := by
  constructor
  · intro hne
    unfold calculate_channel_engagement
    rw [if_neg hne]
    rfl
  · rfl

/-- Witness for the amended C4 at one concrete video and positive
subscriber count. -/
theorem C4_channel_engagement_witness :
    ([(⟨"t", "2020", 100, 5, 3⟩ : VideoSummary)] ≠ [])
    ∧ calculate_channel_engagement [⟨"t", "2020", 100, 5, 3⟩] (some 50) = some
        { avg_views_per_video := format_number (.num
            (⌊(totalViews [⟨"t", "2020", 100, 5, 3⟩] : ℚ)
              / ((([(⟨"t", "2020", 100, 5, 3⟩ : VideoSummary)].length : ℕ)) : ℚ)⌋).toNat)
          engagement_rate := fmtFixed 2 (if 0 < 50 then
            ((totalLikes [⟨"t", "2020", 100, 5, 3⟩] : ℚ)
              + (totalComments [⟨"t", "2020", 100, 5, 3⟩] : ℚ)) / ((50 : ℕ) : ℚ) * 100
            else 0) ++ "%"
          total_recent_views := format_number (.num (totalViews [⟨"t", "2020", 100, 5, 3⟩]))
          total_recent_likes := format_number (.num (totalLikes [⟨"t", "2020", 100, 5, 3⟩]))
          total_recent_comments :=
            format_number (.num (totalComments [⟨"t", "2020", 100, 5, 3⟩])) } :=
  ⟨by simp, (C4_channel_engagement [⟨"t", "2020", 100, 5, 3⟩] 50).1 (by simp)⟩

/-- Claim C5: video engagement.  With positive views the three ratios are
`likes/views*100`, `comments/views*100` and their sum, rendered as
2-decimal percentages, and `likes_per_view = likes/views` at 4 decimals;
with zero views all ratios render `"0.00%"` and `likes_per_view` is the
literal `"0"`; in particular views=100, likes=10, comments=5 gives
`"10.00%"`, `"5.00%"`, `"15.00%"`, `"0.1000"`. -/
theorem C5_video_engagement :
    (∀ views likes comments : Nat, 0 < views →
      calculate_video_engagement views likes comments =
        { like_pct := fmtFixed 2 ((likes : ℚ) / (views : ℚ) * 100) ++ "%"
          comment_pct := fmtFixed 2 ((comments : ℚ) / (views : ℚ) * 100) ++ "%"
          total_engagement := fmtFixed 2 ((likes : ℚ) / (views : ℚ) * 100
            + (comments : ℚ) / (views : ℚ) * 100) ++ "%"
          likes_per_view := fmtFixed 4 ((likes : ℚ) / (views : ℚ)) })
    ∧ (∀ likes comments : Nat,
        calculate_video_engagement 0 likes comments = ⟨"0.00%", "0.00%", "0.00%", "0"⟩)
    ∧ calculate_video_engagement 100 10 5 = ⟨"10.00%", "5.00%", "15.00%", "0.1000"⟩ := by
  have hpos : ∀ views likes comments : Nat, 0 < views →
      calculate_video_engagement views likes comments =
        { like_pct := fmtFixed 2 ((likes : ℚ) / (views : ℚ) * 100) ++ "%"
          comment_pct := fmtFixed 2 ((comments : ℚ) / (views : ℚ) * 100) ++ "%"
          total_engagement := fmtFixed 2 ((likes : ℚ) / (views : ℚ) * 100
            + (comments : ℚ) / (views : ℚ) * 100) ++ "%"
          likes_per_view := fmtFixed 4 ((likes : ℚ) / (views : ℚ)) } := by
    intro v l c h
    unfold calculate_video_engagement
    rw [if_pos h]
  refine ⟨hpos, ?_, ?_⟩
  · intro l c
    unfold calculate_video_engagement
    rw [if_neg (by omega), fmt2_zero]
    rfl
  · rw [hpos 100 10 5 (by norm_num)]
    have e1 : fmtFixed 2 (((10 : ℕ) : ℚ) / ((100 : ℕ) : ℚ) * 100) = "10.00" :=
      (fmtFixed_eq 2 _ 1000 (by norm_num [roundHalfEven])).trans rfl
    have e2 : fmtFixed 2 (((5 : ℕ) : ℚ) / ((100 : ℕ) : ℚ) * 100) = "5.00" :=
      (fmtFixed_eq 2 _ 500 (by norm_num [roundHalfEven])).trans rfl
    have e3 : fmtFixed 2 (((10 : ℕ) : ℚ) / ((100 : ℕ) : ℚ) * 100
        + ((5 : ℕ) : ℚ) / ((100 : ℕ) : ℚ) * 100) = "15.00" :=
      (fmtFixed_eq 2 _ 1500 (by norm_num [roundHalfEven])).trans rfl
    have e4 : fmtFixed 4 (((10 : ℕ) : ℚ) / ((100 : ℕ) : ℚ)) = "0.1000" :=
      (fmtFixed_eq 4 _ 1000 (by norm_num [roundHalfEven])).trans rfl
    rw [e1, e2, e3, e4]
    rfl

/-- Witness for C5 at positive views. -/
theorem C5_video_engagement_witness :
    0 < 100
    ∧ calculate_video_engagement 100 10 5 =
        { like_pct := fmtFixed 2 (((10 : ℕ) : ℚ) / ((100 : ℕ) : ℚ) * 100) ++ "%"
          comment_pct := fmtFixed 2 (((5 : ℕ) : ℚ) / ((100 : ℕ) : ℚ) * 100) ++ "%"
          total_engagement := fmtFixed 2 (((10 : ℕ) : ℚ) / ((100 : ℕ) : ℚ) * 100
            + ((5 : ℕ) : ℚ) / ((100 : ℕ) : ℚ) * 100) ++ "%"
          likes_per_view := fmtFixed 4 (((10 : ℕ) : ℚ) / ((100 : ℕ) : ℚ)) } :=
  ⟨by decide, C5_video_engagement.1 100 10 5 (by decide)⟩

/-- Claim C6: `format_number` is total and renders with thresholds
1e9 → `B`, 1e6 → `M`, 1e3 → `K`, below 1e3 a plain integer string, and
`"0"` on malformed input; in particular 999, 1500, 2300000, 1000000000
and `"abc"` give `"999"`, `"1.5K"`, `"2.3M"`, `"1.0B"`, `"0"`. -/
theorem C6_format_number :
    (∀ n : Nat, 1000000000 ≤ n →
       format_number (.num n) = fmtFixed 1 ((n : ℚ) / 1000000000) ++ "B")
    ∧ (∀ n : Nat, n < 1000000000 → 1000000 ≤ n →
       format_number (.num n) = fmtFixed 1 ((n : ℚ) / 1000000) ++ "M")
    ∧ (∀ n : Nat, n < 1000000 → 1000 ≤ n →
       format_number (.num n) = fmtFixed 1 ((n : ℚ) / 1000) ++ "K")
    ∧ (∀ n : Nat, n < 1000 → format_number (.num n) = toString n)
    ∧ (∀ s : String, format_number (.malformed s) = "0")
    ∧ format_number (.num 999) = "999"
    ∧ format_number (.num 1500) = "1.5K"
    ∧ format_number (.num 2300000) = "2.3M"
    ∧ format_number (.num 1000000000) = "1.0B"
    ∧ format_number (.malformed "abc") = "0" := by
  refine ⟨?_, ?_, ?_, ?_, fun s => rfl, rfl, ?_, ?_, ?_, rfl⟩
  · intro n h
    simp only [format_number]
    rw [if_pos h]
  · intro n h1 h2
    simp only [format_number]
    rw [if_neg (by omega), if_pos h2]
  · intro n h1 h2
    simp only [format_number]
    rw [if_neg (by omega), if_neg (by omega), if_pos h2]
  · intro n h
    simp only [format_number]
    rw [if_neg (by omega), if_neg (by omega), if_neg (by omega)]
  · have e : fmtFixed 1 (((1500 : ℕ) : ℚ) / 1000) = "1.5" :=
      (fmtFixed_eq 1 _ 15 (by norm_num [roundHalfEven])).trans rfl
    show fmtFixed 1 (((1500 : ℕ) : ℚ) / 1000) ++ "K" = "1.5K"
    rw [e]
    rfl
  · have e : fmtFixed 1 (((2300000 : ℕ) : ℚ) / 1000000) = "2.3" :=
      (fmtFixed_eq 1 _ 23 (by norm_num [roundHalfEven])).trans rfl
    show fmtFixed 1 (((2300000 : ℕ) : ℚ) / 1000000) ++ "M" = "2.3M"
    rw [e]
    rfl
  · have e : fmtFixed 1 (((1000000000 : ℕ) : ℚ) / 1000000000) = "1.0" :=
      (fmtFixed_eq 1 _ 10 (by norm_num [roundHalfEven])).trans rfl
    show fmtFixed 1 (((1000000000 : ℕ) : ℚ) / 1000000000) ++ "B" = "1.0B"
    rw [e]
    rfl

/-- Witness for C6 at a concrete value in the `K` band. -/
theorem C6_format_number_witness :
    (1500 : ℕ) < 1000000 ∧ (1000 : ℕ) ≤ 1500
    ∧ format_number (.num 1500) = fmtFixed 1 (((1500 : ℕ) : ℚ) / 1000) ++ "K" :=
  ⟨by decide, by decide, C6_format_number.2.2.1 1500 (by decide) (by decide)⟩

/-- Claim C10: `analyze_sentiment` depends only on which keywords occur
as substrings (each keyword counts at most once however often it
occurs), matches keywords inside longer words (a text consisting of
`goodbye` counts a positive match via `good` and classifies positive),
and always returns one of the three tags. -/
theorem C10_sentiment :
    (∀ t1 t2 : String,
      (∀ w ∈ positive_words ++ negative_words,
        pyIn w (pyLower t1) = pyIn w (pyLower t2)) →
      analyze_sentiment t1 = analyze_sentiment t2)
    ∧ pyIn "good" (pyLower "goodbye") = true
    ∧ analyze_sentiment "goodbye" = "positive"
    ∧ ∀ t : String, analyze_sentiment t = "positive"
        ∨ analyze_sentiment t = "negative" ∨ analyze_sentiment t = "neutral" := by
  refine ⟨?_, rfl, rfl, ?_⟩
  · intro t1 t2 h
    simp only [analyze_sentiment]
    have hp : positive_words.filter (fun w => pyIn w (pyLower t1))
        = positive_words.filter (fun w => pyIn w (pyLower t2)) :=
      List.filter_congr fun w hw => h w (List.mem_append_left _ hw)
    have hn : negative_words.filter (fun w => pyIn w (pyLower t1))
        = negative_words.filter (fun w => pyIn w (pyLower t2)) :=
      List.filter_congr fun w hw => h w (List.mem_append_right _ hw)
    rw [hp, hn]
  · intro t
    simp only [analyze_sentiment]
    split
    · left; rfl
    · split
      · right; left; rfl
      · right; right; rfl

/-- Witness for C10: a text with one occurrence of `good` and a text with
two occurrences classify identically. -/
theorem C10_sentiment_witness :
    (∀ w ∈ positive_words ++ negative_words,
      pyIn w (pyLower "good") = pyIn w (pyLower "good good"))
    ∧ analyze_sentiment "good" = analyze_sentiment "good good" :=
  ⟨by decide, C10_sentiment.1 "good" "good good" (by decide)⟩
